import Mathlib

/-!
Shallow embedding of `src/src/web_socket_connection.rs` (robyn's per-connection
WebSocket session actor) and proofs about it.

Modelling conventions:
- A Python exception (`PyErr`) is modelled as its terminal message plus the
  optional already-formatted traceback string (`error.traceback(py)` followed by
  `traceback.format()`).
- A Python object (`PyAny`) seen at the bridge is either a plain value
  (`None`, a `str`, or some other non-extractable object) or a coroutine whose
  eventual awaited result is a value or an exception.
- The registered handler callable is a function from the positional argument
  list (all arguments passed by the source are strings) to `Except PyErr PyAny`,
  mirroring pyo3's `call0`/`call1` returning `Result<&PyAny, PyErr>`.
- Rust `panic!` (from `.unwrap()`) is modelled as an `Option String` panic field
  in the step results; the two distinct unwrap panic messages (`Option::unwrap`
  on `None` for the router lookup, `Result::unwrap` on `Err` for the Python
  call path) are kept distinct so that which unwrap fired is observable.
- Effects on the actix context (`ctx.text`, `ctx.pong`, `ctx.binary`,
  `error!` logging) are recorded in order in a trace; each handler invocation is
  additionally recorded as a ghost `callHandler` trace event carrying the event
  name and the positional arguments, so that invocation counts and argument
  contents are observable. `ctx.spawn` of the async completion future is
  modelled as a separate deferred task result, since its effects happen after
  the current message is fully handled.
- `TaskLocals` (the pyo3-asyncio scheduling context) carries no semantic
  content for these claims and is omitted from the state.
-/

/-- A Python exception: terminal error message plus optional formatted traceback. -/
structure PyErr where
  reason : String
  traceback : Option String

/-- Plain (non-coroutine) Python value as observed by the extraction calls
used in the source: `None`, a `str`, or anything else. -/
inductive PyVal where
  | vNone : PyVal
  | vStr : String → PyVal
  | vOther : PyVal

/-- A Python object returned by a handler call: either a plain value, or a
coroutine whose awaited outcome is a value or a raised exception. -/
inductive PyAny where
  | val : PyVal → PyAny
  | coro : Except PyErr PyVal → PyAny

/-- Mirrors the fields of `FunctionInfo` used by `web_socket_connection.rs`:
the Python callable, `is_async`, and `number_of_params` (a `u8` in the source,
modelled as `Nat`; the source's `2_u8..=u8::MAX` arm is the `≥ 2` arm here). -/
structure FunctionInfo where
  handler : List String → Except PyErr PyAny
  is_async : Bool
  number_of_params : Nat

/-- Mirrors `struct MyWs { id: Uuid, router: HashMap<String, FunctionInfo>, .. }`.
The `Uuid` identity is modelled as its string form (the source only ever uses
`ws.id.to_string()`); the `HashMap` is modelled as an association list. -/
structure MyWs where
  id : String
  router : List (String × FunctionInfo)

/-- Lookup in the router map, mirroring `HashMap::get`. -/
def routerGet (router : List (String × FunctionInfo)) (name : String) :
    Option FunctionInfo :=
  (router.find? (fun p => p.1 == name)).map (fun p => p.2)

/-- The positional argument list built by the `match function.number_of_params`
in `get_function_output`: `0 → call0()`, `1 → call1((ws.id.to_string(),))`,
`2..=u8::MAX → call1((ws.id.to_string(), fn_msg.unwrap_or_default()))`. -/
def build_arguments (number_of_params : Nat) (id : String)
    (fn_msg : Option String) : List String :=
  match number_of_params with
  | 0 => []
  | 1 => [id]
  | _ => [id, fn_msg.getD ""]

/-- Mirrors `get_function_output`: dispatch on `number_of_params` and call the
handler with the corresponding argument tuple. -/
def get_function_output (function : FunctionInfo) (fn_msg : Option String)
    (ws : MyWs) : Except PyErr PyAny :=
  match function.number_of_params with
  | 0 => function.handler []
  | 1 => function.handler [ws.id]
  | _ => function.handler [ws.id, fn_msg.getD ""]

/-- Mirrors pyo3 extraction `extract::<Option<String>>()` on a plain value:
Python `None` extracts to `none`, a `str` to `some`, anything else fails. -/
def extract_opt_string : PyAny → Except PyErr (Option String)
  | .val .vNone => .ok none
  | .val (.vStr s) => .ok (some s)
  | .val .vOther => .error ⟨"TypeError: object cannot be converted to Option<String>", none⟩
  | .coro _ => .error ⟨"TypeError: coroutine cannot be converted to Option<String>", none⟩

/-- Mirrors pyo3 extraction `extract::<&str>()` on the awaited value. -/
def extract_str : PyVal → Except PyErr String
  | .vStr s => .ok s
  | _ => .error ⟨"TypeError: object cannot be converted to str", none⟩

/-- Mirrors `get_traceback`: prepend the formatted traceback when one is
attached to the exception, otherwise just the exception's message. -/
def get_traceback (error : PyErr) : String :=
  match error.traceback with
  | some msg => "With PyTraceback: \n" ++ msg ++ " " ++ error.reason
  | none => error.reason

/-- Message of the Rust panic raised by `Result::unwrap` on an `Err`. -/
def resultUnwrapPanic : String := "called Result::unwrap on an Err value"

/-- Message of the Rust panic raised by `Option::unwrap` on a `None`
(the `self.router.get(..).unwrap()` lookups). -/
def optionUnwrapPanic : String := "called Option::unwrap on a None value"

/-- One observable event of a session: an outbound frame written to the
websocket context, a logged error, or (ghost instrumentation) a handler
invocation recorded with its event name and positional arguments. -/
inductive TraceEvent where
  | frameText : String → TraceEvent
  | framePong : List Nat → TraceEvent
  | frameBinary : List Nat → TraceEvent
  | logError : String → TraceEvent
  | callHandler : String → List String → TraceEvent
  deriving Repr, DecidableEq

/-- Result of the future spawned on the actor context by the async path of
`execute_ws_function`: the effects it eventually performs, or the panic that
kills it. -/
structure TaskResult where
  trace : List TraceEvent
  panicMsg : Option String
  deriving Repr, DecidableEq

/-- Result of one `execute_ws_function` call: the effects performed
synchronously (in order), the synchronous panic if one fired, and the spawned
completion task when the async path was taken. -/
structure ExecResult where
  trace : List TraceEvent
  panicMsg : Option String
  task : Option TaskResult
  deriving Repr, DecidableEq

/-- Mirrors `execute_ws_function`. The `event_name` argument is ghost
instrumentation naming the registry entry being executed; it only feeds the
recorded `callHandler` trace event.

Async path (`function.is_async`): `get_function_output(..).unwrap()` panics on
a raised exception, `into_future_with_locals(..).unwrap()` panics when the
returned object is not awaitable; otherwise the completion future is spawned,
and in it `fut.await.unwrap()` panics when the coroutine fails and
`output.extract::<&str>(py).unwrap()` panics when the result is not a string,
else `ctx.text(res)` runs.

Sync path: `get_function_output(..).unwrap()` panics on a raised exception;
a successful `extract::<Option<String>>()` yields
`ctx.text(result.unwrap_or("OK"))`; a failed extraction is logged via
`error!("Error while executing websocket call: {}", get_traceback(&e))`. -/
def execute_ws_function (function : FunctionInfo) (text : Option String)
    (event_name : String) (ws : MyWs) : ExecResult :=
  let callEv : TraceEvent :=
    TraceEvent.callHandler event_name
      (build_arguments function.number_of_params ws.id text)
  if function.is_async then
    match get_function_output function text ws with
    | .error _ => ⟨[callEv], some resultUnwrapPanic, none⟩
    | .ok (.val _) => ⟨[callEv], some resultUnwrapPanic, none⟩
    | .ok (.coro res) =>
        let task : TaskResult :=
          match res with
          | .error _ => ⟨[], some resultUnwrapPanic⟩
          | .ok v =>
              match extract_str v with
              | .error _ => ⟨[], some resultUnwrapPanic⟩
              | .ok s => ⟨[TraceEvent.frameText s], none⟩
        ⟨[callEv], none, some task⟩
  else
    match get_function_output function text ws with
    | .error _ => ⟨[callEv], some resultUnwrapPanic, none⟩
    | .ok any =>
        match extract_opt_string any with
        | .ok result =>
            ⟨[callEv, TraceEvent.frameText (result.getD "OK")], none, none⟩
        | .error e =>
            ⟨[callEv,
              TraceEvent.logError
                ("Error while executing websocket call: " ++ get_traceback e)],
             none, none⟩

/-- Combined result of handling one actor callback or one inbound message:
trace of synchronous effects, panic if one fired, and the spawned tasks. -/
structure HandleResult where
  trace : List TraceEvent
  panicMsg : Option String
  tasks : List TaskResult
  deriving Repr, DecidableEq

/-- Lift an `ExecResult` to a `HandleResult`. -/
def execToHandle (e : ExecResult) : HandleResult :=
  ⟨e.trace, e.panicMsg, e.task.toList⟩

/-- Mirrors `Actor::started` for `MyWs`:
`self.router.get("connect").unwrap()` (panic when absent) then
`execute_ws_function(function, None, ..)`. -/
def MyWs.started (ws : MyWs) : HandleResult :=
  match routerGet ws.router "connect" with
  | none => ⟨[], some optionUnwrapPanic, []⟩
  | some function => execToHandle (execute_ws_function function none "connect" ws)

/-- Mirrors `Actor::stopped` for `MyWs`:
`self.router.get("close").unwrap()` then `execute_ws_function(function, None, ..)`. -/
def MyWs.stopped (ws : MyWs) : HandleResult :=
  match routerGet ws.router "close" with
  | none => ⟨[], some optionUnwrapPanic, []⟩
  | some function => execToHandle (execute_ws_function function none "close" ws)

/-- Inbound websocket protocol messages (`ws::Message`); frame payloads are
byte sequences modelled as `List Nat`. -/
inductive WsMessage where
  | Ping : List Nat → WsMessage
  | Pong : List Nat → WsMessage
  | Text : String → WsMessage
  | Binary : List Nat → WsMessage
  | Close : WsMessage
  | Continuation : WsMessage
  | Nop : WsMessage
  deriving Repr, DecidableEq

/-- Transport-level protocol error (`ws::ProtocolError`), matched by the
catch-all arm of the stream handler. -/
structure WsProtocolError where
  msg : String
  deriving Repr, DecidableEq

/-- Mirrors `StreamHandler::handle` for `MyWs`:
Ping → look up "connect", execute it, then `ctx.pong(&msg)`;
Pong → `ctx.pong(&msg)`;
Text → look up "message", execute it with the text as payload;
Binary → `ctx.binary(bin)`;
Close → look up "close", execute it;
anything else (Continuation, Nop, protocol error) → no-op. -/
def MyWs.handle (ws : MyWs) (msg : Except WsProtocolError WsMessage) :
    HandleResult :=
  match msg with
  | .ok (.Ping m) =>
      match routerGet ws.router "connect" with
      | none => ⟨[], some optionUnwrapPanic, []⟩
      | some function =>
          let e := execute_ws_function function none "connect" ws
          match e.panicMsg with
          | some p => ⟨e.trace, some p, e.task.toList⟩
          | none => ⟨e.trace ++ [TraceEvent.framePong m], none, e.task.toList⟩
  | .ok (.Pong m) => ⟨[TraceEvent.framePong m], none, []⟩
  | .ok (.Text text) =>
      match routerGet ws.router "message" with
      | none => ⟨[], some optionUnwrapPanic, []⟩
      | some function =>
          execToHandle (execute_ws_function function (some text) "message" ws)
  | .ok (.Binary bin) => ⟨[TraceEvent.frameBinary bin], none, []⟩
  | .ok .Close =>
      match routerGet ws.router "close" with
      | none => ⟨[], some optionUnwrapPanic, []⟩
      | some function => execToHandle (execute_ws_function function none "close" ws)
  | _ => ⟨[], none, []⟩

/-- Process a list of inbound messages in arrival order, halting at the first
panic (a panic unwinds the actor's processing). -/
def processEvents (ws : MyWs) :
    List (Except WsProtocolError WsMessage) → HandleResult
  | [] => ⟨[], none, []⟩
  | e :: rest =>
      let r := ws.handle e
      match r.panicMsg with
      | some p => ⟨r.trace, some p, r.tasks⟩
      | none =>
          let r2 := processEvents ws rest
          ⟨r.trace ++ r2.trace, r2.panicMsg, r.tasks ++ r2.tasks⟩

/-- One complete session lifecycle: the actor starts (`started`), processes the
inbound events in arrival order, and — when nothing panicked — is stopped by
transport teardown (`stopped`). A panic halts the lifecycle at that point. -/
def run_lifecycle (ws : MyWs)
    (events : List (Except WsProtocolError WsMessage)) : HandleResult :=
  let s := ws.started
  match s.panicMsg with
  | some p => ⟨s.trace, some p, s.tasks⟩
  | none =>
      let m := processEvents ws events
      match m.panicMsg with
      | some p => ⟨s.trace ++ m.trace, some p, s.tasks ++ m.tasks⟩
      | none =>
          let c := ws.stopped
          ⟨s.trace ++ m.trace ++ c.trace, c.panicMsg,
           s.tasks ++ m.tasks ++ c.tasks⟩

/-- Whether a trace event is an outbound frame written to the transport. -/
def isOutboundFrame : TraceEvent → Bool
  | .frameText _ => true
  | .framePong _ => true
  | .frameBinary _ => true
  | _ => false

/-- The outbound frames of a trace, in order. -/
def outboundFrames (trace : List TraceEvent) : List TraceEvent :=
  trace.filter isOutboundFrame

/-- Whether a trace event is a logged error record. -/
def isLogError : TraceEvent → Bool
  | .logError _ => true
  | _ => false

/-- Number of invocations of the handler registered under `name` recorded in a
trace. -/
def countHandlerCalls (name : String) (trace : List TraceEvent) : Nat :=
  trace.countP (fun ev =>
    match ev with
    | .callHandler n _ => n == name
    | _ => false)

/-- Sample handler: returns Python `None` (a handler with no return value). -/
def pyNoneHandler : List String → Except PyErr PyAny :=
  fun _ => .ok (.val .vNone)

/-- Sample handler: returns the fixed Python string `s`. -/
def pyStrHandler (s : String) : List String → Except PyErr PyAny :=
  fun _ => .ok (.val (.vStr s))

/-- Sample handler: raises a Python exception. -/
def raisingHandler : List String → Except PyErr PyAny :=
  fun _ => .error ⟨"ValueError: handler failed", some "  File handlers.py, line 3"⟩

/-- Sample async handler: returns a coroutine that fails when awaited. -/
def failingCoroHandler : List String → Except PyErr PyAny :=
  fun _ => .ok (.coro (.error ⟨"RuntimeError: task failed", none⟩))

/-- Sample message handler: answers "pong" to the payload "ping". -/
def pingPongHandler : List String → Except PyErr PyAny :=
  fun args => .ok (.val (.vStr (if args.getD 1 "" == "ping" then "pong" else "other")))

/-- Sync 1-parameter handler returning `None`. -/
def fnSyncNone : FunctionInfo := ⟨pyNoneHandler, false, 1⟩

/-- Sync 0-parameter handler returning the string "hello". -/
def fnSyncHello : FunctionInfo := ⟨pyStrHandler "hello", false, 0⟩

/-- Sync 2-parameter handler that raises. -/
def fnSyncRaise : FunctionInfo := ⟨raisingHandler, false, 2⟩

/-- Async 2-parameter handler whose coroutine fails. -/
def fnAsyncFail : FunctionInfo := ⟨failingCoroHandler, true, 2⟩

/-- Sync 2-parameter ping/pong message handler. -/
def fnPingPong : FunctionInfo := ⟨pingPongHandler, false, 2⟩

/-- Registry with well-behaved handlers for all three events. -/
def wsOk : MyWs :=
  ⟨"id0", [("connect", fnSyncNone), ("message", fnPingPong), ("close", fnSyncNone)]⟩

/-- Registry whose synchronous `message` handler raises. -/
def wsRaise : MyWs :=
  ⟨"id1", [("connect", fnSyncNone), ("message", fnSyncRaise), ("close", fnSyncNone)]⟩

/-- Registry whose async `message` handler's coroutine fails. -/
def wsAsyncFail : MyWs :=
  ⟨"id2", [("connect", fnSyncNone), ("message", fnAsyncFail), ("close", fnSyncNone)]⟩

/-- Registry whose `connect` handler returns the string "hello". -/
def wsHello : MyWs :=
  ⟨"id3", [("connect", fnSyncHello), ("message", fnSyncNone), ("close", fnSyncNone)]⟩

/-- Registry whose synchronous `connect` handler raises. -/
def wsRaiseConnect : MyWs :=
  ⟨"id4", [("connect", fnSyncRaise), ("message", fnSyncNone), ("close", fnSyncNone)]⟩

/-- Claim C1: the claim says a raising synchronous `message` handler is
captured at the bridge and logged, with the session continuing. The code
instead calls `.unwrap()` on the handler's `Err` and panics: at the failing
input, the handle step panics with the `Result::unwrap` panic, produces zero
outbound frames, and logs nothing — only extraction failures reach the logged
branch. -/
theorem c1_sync_raise_is_panic_not_logged :
    (MyWs.handle wsRaise (Except.ok (WsMessage.Text "ping"))).panicMsg =
      some resultUnwrapPanic ∧
    outboundFrames (MyWs.handle wsRaise (Except.ok (WsMessage.Text "ping"))).trace = [] ∧
    (MyWs.handle wsRaise (Except.ok (WsMessage.Text "ping"))).trace.countP isLogError = 0 :=
  ⟨rfl, rfl, rfl⟩

/-- Claim C2: the claim says a failing suspending handler yields a `Failed`
outcome routed through the same logging path as the synchronous case and never
crashes the event loop. The code's spawned completion future instead unwraps
the awaited result and panics: at the failing input the spawned task carries
the `Result::unwrap` panic and nothing is logged anywhere. -/
theorem c2_async_failure_panics_task_unlogged :
    (MyWs.handle wsAsyncFail (Except.ok (WsMessage.Text "x"))).tasks =
      [⟨[], some resultUnwrapPanic⟩] ∧
    (MyWs.handle wsAsyncFail (Except.ok (WsMessage.Text "x"))).trace.countP isLogError = 0 :=
  ⟨rfl, rfl⟩

/-- Claim C3: the claim says `close` is invoked at most once per session
lifecycle. In the code the Close-frame branch of `StreamHandler::handle` and
`Actor::stopped` each invoke the `close` handler, so a lifecycle in which the
peer sends a Close frame and the transport then tears down invokes it twice. -/
theorem c3_close_invoked_twice :
    countHandlerCalls "close" (run_lifecycle wsOk [Except.ok WsMessage.Close]).trace = 2 :=
  rfl

/-- Claim C4, counterexample: the claim says session start produces no
outbound frame for any registry and connect-handler return value. With a
synchronous `connect` handler returning the string "hello", `Actor::started`
routes the outcome through the shared `execute_ws_function`, which writes it
back: session start produces the outbound text frame "hello". -/
theorem c4_counterexample :
    outboundFrames (MyWs.started wsHello).trace = [TraceEvent.frameText "hello"] ∧
    outboundFrames (MyWs.started wsHello).trace ≠ [] :=
  ⟨rfl, by decide⟩

/-- On the synchronous path, a call that succeeds and extracts to `r` records
the invocation and writes exactly the text frame `r.getD "OK"`. -/
theorem execute_sync_success (function : FunctionInfo) (text : Option String)
    (en : String) (ws : MyWs) (v : PyVal) (r : Option String)
    (ha : function.is_async = false)
    (hc : get_function_output function text ws = Except.ok (PyAny.val v))
    (he : extract_opt_string (PyAny.val v) = Except.ok r) :
    execute_ws_function function text en ws =
      ⟨[TraceEvent.callHandler en (build_arguments function.number_of_params ws.id text),
        TraceEvent.frameText (r.getD "OK")], none, none⟩ := by
  unfold execute_ws_function
  rw [ha, hc]
  dsimp only
  rw [he]
  rfl

/-- On the synchronous path, a call that succeeds but whose result fails
extraction records the invocation and logs the failure, writing no frame. -/
theorem execute_sync_extract_fail (function : FunctionInfo) (text : Option String)
    (en : String) (ws : MyWs) (v : PyVal) (e : PyErr)
    (ha : function.is_async = false)
    (hc : get_function_output function text ws = Except.ok (PyAny.val v))
    (he : extract_opt_string (PyAny.val v) = Except.error e) :
    execute_ws_function function text en ws =
      ⟨[TraceEvent.callHandler en (build_arguments function.number_of_params ws.id text),
        TraceEvent.logError ("Error while executing websocket call: " ++ get_traceback e)],
       none, none⟩ := by
  unfold execute_ws_function
  rw [ha, hc]
  dsimp only
  rw [he]
  rfl

/-- Every `execute_ws_function` trace starts with the recorded invocation of
the named registry entry with the arguments built from the session identity
and the payload. -/
theorem execute_trace_head (function : FunctionInfo) (text : Option String)
    (en : String) (ws : MyWs) :
    ∃ rest, (execute_ws_function function text en ws).trace =
      TraceEvent.callHandler en (build_arguments function.number_of_params ws.id text) :: rest := by
  unfold execute_ws_function
  split
  · split <;> exact ⟨_, rfl⟩
  · split
    · exact ⟨_, rfl⟩
    · split <;> exact ⟨_, rfl⟩

/-- Claim C4 (amended): the outcome of the `connect` handler invoked at
session start IS written back through the shared execute path. For a
synchronous `connect` handler: a successful call whose result extracts to `r`
yields exactly the outbound text frame `r.getD "OK"` at session start; a call
whose result fails extraction yields no outbound frame and a logged failure
record. -/
theorem c4_connect_outcome_written (ws : MyWs) (function : FunctionInfo)
    (hf : routerGet ws.router "connect" = some function)
    (ha : function.is_async = false) :
    (∀ v r, get_function_output function none ws = Except.ok (PyAny.val v) →
        extract_opt_string (PyAny.val v) = Except.ok r →
        outboundFrames (MyWs.started ws).trace = [TraceEvent.frameText (r.getD "OK")]) ∧
    (∀ v e, get_function_output function none ws = Except.ok (PyAny.val v) →
        extract_opt_string (PyAny.val v) = Except.error e →
        outboundFrames (MyWs.started ws).trace = [] ∧
        TraceEvent.logError ("Error while executing websocket call: " ++ get_traceback e) ∈
          (MyWs.started ws).trace) := by
  constructor
  · intro v r hc he
    unfold MyWs.started
    rw [hf]
    dsimp only
    rw [execute_sync_success function none "connect" ws v r ha hc he]
    rfl
  · intro v e hc he
    unfold MyWs.started
    rw [hf]
    dsimp only
    rw [execute_sync_extract_fail function none "connect" ws v e ha hc he]
    exact ⟨rfl, by simp [execToHandle]⟩

/-- Witness for C4 (amended) at a concrete registry: a sync `connect` handler
returning "hello" makes session start write back exactly that frame. -/
theorem c4_connect_outcome_written_witness :
    outboundFrames (MyWs.started wsHello).trace = [TraceEvent.frameText "hello"] :=
  (c4_connect_outcome_written wsHello fnSyncHello rfl rfl).1
    (PyVal.vStr "hello") (some "hello") rfl rfl

/-- Claim C5, counterexample: the claim says every inbound Ping gets a Pong
reply echoing its payload. With a synchronous `connect` handler that raises,
the handle step panics at the `.unwrap()` before `ctx.pong(&msg)` is reached:
no Pong frame for payload `[7]` appears in the trace. -/
theorem c5_counterexample :
    TraceEvent.framePong [7] ∉
      (MyWs.handle wsRaiseConnect (Except.ok (WsMessage.Ping [7]))).trace ∧
    (MyWs.handle wsRaiseConnect (Except.ok (WsMessage.Ping [7]))).panicMsg =
      some resultUnwrapPanic :=
  ⟨by decide, rfl⟩

/-- Claim C5 (amended): on every inbound Ping the session invokes the
registry's `connect` handler (no payload, arguments per its arity class); and
whenever that execution does not panic, the session's trace is the handler's
effects followed by a Pong frame echoing the Ping payload. A raising
synchronous connect handler panics before the Pong is written. -/
theorem c5_ping_connect_and_pong (ws : MyWs) (function : FunctionInfo) (b : List Nat)
    (hf : routerGet ws.router "connect" = some function) :
    TraceEvent.callHandler "connect" (build_arguments function.number_of_params ws.id none) ∈
      (MyWs.handle ws (Except.ok (WsMessage.Ping b))).trace ∧
    ((execute_ws_function function none "connect" ws).panicMsg = none →
      (MyWs.handle ws (Except.ok (WsMessage.Ping b))).trace =
        (execute_ws_function function none "connect" ws).trace ++ [TraceEvent.framePong b]) := by
  obtain ⟨rest, hr⟩ := execute_trace_head function none "connect" ws
  unfold MyWs.handle
  rw [hf]
  dsimp only
  constructor
  · rcases hp : (execute_ws_function function none "connect" ws).panicMsg with _ | p
    · dsimp only
      rw [hr]
      simp
    · dsimp only
      rw [hr]
      simp
  · intro hp
    rw [hp]

/-- Witness for C5 (amended) at a concrete registry and Ping payload. -/
theorem c5_ping_connect_and_pong_witness :
    TraceEvent.callHandler "connect" (build_arguments fnSyncNone.number_of_params wsOk.id none) ∈
      (MyWs.handle wsOk (Except.ok (WsMessage.Ping [0]))).trace ∧
    (MyWs.handle wsOk (Except.ok (WsMessage.Ping [0]))).trace =
      (execute_ws_function fnSyncNone none "connect" wsOk).trace ++ [TraceEvent.framePong [0]] :=
  ⟨(c5_ping_connect_and_pong wsOk fnSyncNone [0] rfl).1,
   (c5_ping_connect_and_pong wsOk fnSyncNone [0] rfl).2 rfl⟩

/-- Claim C6: an inbound Text message dispatched to a synchronous `message`
handler that succeeds with extracted result `r` yields exactly one outbound
text frame: the returned string when `r = some text`, the default "OK" when
`r = none` — that is, `r.getD "OK"`. -/
theorem c6_text_sync_success (ws : MyWs) (function : FunctionInfo) (s : String)
    (v : PyVal) (r : Option String)
    (hf : routerGet ws.router "message" = some function)
    (ha : function.is_async = false)
    (hc : get_function_output function (some s) ws = Except.ok (PyAny.val v))
    (he : extract_opt_string (PyAny.val v) = Except.ok r) :
    outboundFrames (MyWs.handle ws (Except.ok (WsMessage.Text s))).trace =
      [TraceEvent.frameText (r.getD "OK")] := by
  unfold MyWs.handle
  rw [hf]
  dsimp only
  rw [execute_sync_success function (some s) "message" ws v r ha hc he]
  rfl

/-- Witness for C6: a sync `message` handler returning "pong" for input "ping"
yields exactly the outbound text frame "pong". -/
theorem c6_text_sync_success_witness :
    outboundFrames (MyWs.handle wsOk (Except.ok (WsMessage.Text "ping"))).trace =
      [TraceEvent.frameText "pong"] :=
  c6_text_sync_success wsOk fnPingPong "ping" (PyVal.vStr "pong") (some "pong")
    rfl rfl rfl rfl

/-- Claim C7: `build_arguments` is a pure total function of arity class,
identity, and optional payload: arity 0 yields the empty list (ignoring the
payload), arity 1 yields exactly the identity, any arity ≥ 2 yields exactly
the identity followed by the payload or the empty string; and
`get_function_output` calls the handler on exactly this argument list. -/
theorem c7_build_arguments_spec (function : FunctionInfo) (fn_msg : Option String)
    (ws : MyWs) :
    get_function_output function fn_msg ws =
      function.handler (build_arguments function.number_of_params ws.id fn_msg) ∧
    (function.number_of_params = 0 →
      build_arguments function.number_of_params ws.id fn_msg = []) ∧
    (function.number_of_params = 1 →
      build_arguments function.number_of_params ws.id fn_msg = [ws.id]) ∧
    (2 ≤ function.number_of_params →
      build_arguments function.number_of_params ws.id fn_msg = [ws.id, fn_msg.getD ""]) := by
  obtain ⟨h, a, n⟩ := function
  dsimp only
  refine ⟨?_, ?_, ?_, ?_⟩
  · rcases n with _ | _ | n <;> rfl
  · intro hn; subst hn; rfl
  · intro hn; subst hn; rfl
  · intro hn
    rcases n with _ | _ | n
    · omega
    · omega
    · rfl

/-- Witness for C7 at arity 2 with a payload. -/
theorem c7_build_arguments_spec_witness :
    build_arguments fnPingPong.number_of_params wsOk.id (some "m") = [wsOk.id, "m"] :=
  (c7_build_arguments_spec fnPingPong (some "m") wsOk).2.2.2 (by decide)

/-- Claim C10, counterexample: the claim's asserted outbound order for every
Ping with a synchronous `connect` handler ends with a Pong frame. With a
raising synchronous connect handler the handle step panics before
`ctx.pong(&msg)`: no Pong for payload `[9]` and no outbound frame at all. -/
theorem c10_counterexample :
    TraceEvent.framePong [9] ∉
      (MyWs.handle wsRaiseConnect (Except.ok (WsMessage.Ping [9]))).trace ∧
    outboundFrames (MyWs.handle wsRaiseConnect (Except.ok (WsMessage.Ping [9]))).trace = [] :=
  ⟨by decide, rfl⟩

/-- Claim C10 (amended): on an inbound Ping handled with a synchronous
`connect` handler whose call succeeds, the connect handler's effect precedes
the Pong reply: on successful extraction the trace is the recorded invocation,
the handler's text frame (returned string or "OK"), then the Pong; on failed
extraction it is the invocation, the logged failure (no frame), then the Pong.
When the handler raises, the session panics before the Pong is written. -/
theorem c10_ping_sync_connect_order_cases (ws : MyWs) (function : FunctionInfo)
    (b : List Nat)
    (hf : routerGet ws.router "connect" = some function)
    (ha : function.is_async = false) :
    (∀ v r, get_function_output function none ws = Except.ok (PyAny.val v) →
      extract_opt_string (PyAny.val v) = Except.ok r →
      (MyWs.handle ws (Except.ok (WsMessage.Ping b))).trace =
        [TraceEvent.callHandler "connect" (build_arguments function.number_of_params ws.id none),
         TraceEvent.frameText (r.getD "OK"),
         TraceEvent.framePong b]) ∧
    (∀ v e, get_function_output function none ws = Except.ok (PyAny.val v) →
      extract_opt_string (PyAny.val v) = Except.error e →
      (MyWs.handle ws (Except.ok (WsMessage.Ping b))).trace =
        [TraceEvent.callHandler "connect" (build_arguments function.number_of_params ws.id none),
         TraceEvent.logError ("Error while executing websocket call: " ++ get_traceback e),
         TraceEvent.framePong b]) := by
  constructor
  · intro v r hc he
    unfold MyWs.handle
    rw [hf]
    dsimp only
    rw [execute_sync_success function none "connect" ws v r ha hc he]
    rfl
  · intro v e hc he
    unfold MyWs.handle
    rw [hf]
    dsimp only
    rw [execute_sync_extract_fail function none "connect" ws v e ha hc he]
    rfl

/-- Witness for C10 (amended) at a concrete registry: connect returns "hello",
so the outbound order is the "hello" frame then the Pong echo. -/
theorem c10_ping_sync_connect_order_cases_witness :
    (MyWs.handle wsHello (Except.ok (WsMessage.Ping [1, 2]))).trace =
      [TraceEvent.callHandler "connect" [],
       TraceEvent.frameText "hello",
       TraceEvent.framePong [1, 2]] :=
  (c10_ping_sync_connect_order_cases wsHello fnSyncHello [1, 2] rfl rfl).1
    (PyVal.vStr "hello") (some "hello") rfl rfl

/-- A nonempty argument list built by `build_arguments` starts with the
identity. -/
theorem build_arguments_head (n : Nat) (id : String) (m : Option String)
    (hne : build_arguments n id m ≠ []) :
    (build_arguments n id m).head? = some id := by
  rcases n with _ | _ | n
  · exact absurd rfl hne
  · rfl
  · rfl

/-- Every invocation recorded by `execute_ws_function` carries exactly the
arguments built from the session identity and the call's payload. -/
theorem exec_callHandler_args (function : FunctionInfo) (text : Option String)
    (en : String) (ws : MyWs) (name : String) (args : List String)
    (h : TraceEvent.callHandler name args ∈ (execute_ws_function function text en ws).trace) :
    args = build_arguments function.number_of_params ws.id text := by
  unfold execute_ws_function at h
  dsimp only at h
  split at h
  · split at h <;> simp_all
  · split at h
    · simp_all
    · split at h <;> simp_all

/-- Every invocation recorded by `Actor::started` carries arguments built
from the session identity. -/
theorem started_callHandler_args (ws : MyWs) (name : String) (args : List String)
    (h : TraceEvent.callHandler name args ∈ (MyWs.started ws).trace) :
    ∃ n m, args = build_arguments n ws.id m := by
  unfold MyWs.started at h
  split at h
  · simp at h
  · exact ⟨_, _, exec_callHandler_args _ _ _ _ _ _ (by simpa [execToHandle] using h)⟩

/-- Every invocation recorded by `Actor::stopped` carries arguments built
from the session identity. -/
theorem stopped_callHandler_args (ws : MyWs) (name : String) (args : List String)
    (h : TraceEvent.callHandler name args ∈ (MyWs.stopped ws).trace) :
    ∃ n m, args = build_arguments n ws.id m := by
  unfold MyWs.stopped at h
  split at h
  · simp at h
  · exact ⟨_, _, exec_callHandler_args _ _ _ _ _ _ (by simpa [execToHandle] using h)⟩

/-- Every invocation recorded while handling one inbound message carries
arguments built from the session identity. -/
theorem handle_callHandler_args (ws : MyWs) (msg : Except WsProtocolError WsMessage)
    (name : String) (args : List String)
    (h : TraceEvent.callHandler name args ∈ (MyWs.handle ws msg).trace) :
    ∃ n m, args = build_arguments n ws.id m := by
  unfold MyWs.handle at h
  rcases msg with e | m
  · dsimp only at h
    simp at h
  · rcases m with b | b | s | b | _ | _ | _ <;> dsimp only at h
    · split at h
      · simp at h
      · split at h
        · exact ⟨_, _, exec_callHandler_args _ _ _ _ _ _ h⟩
        · rw [List.mem_append] at h
          rcases h with h | h
          · exact ⟨_, _, exec_callHandler_args _ _ _ _ _ _ h⟩
          · simp at h
    · simp at h
    · split at h
      · simp at h
      · exact ⟨_, _, exec_callHandler_args _ _ _ _ _ _ (by simpa [execToHandle] using h)⟩
    · simp at h
    · split at h
      · simp at h
      · exact ⟨_, _, exec_callHandler_args _ _ _ _ _ _ (by simpa [execToHandle] using h)⟩
    · simp at h
    · simp at h

/-- Every invocation recorded while processing an event list carries
arguments built from the session identity. -/
theorem processEvents_callHandler_args (ws : MyWs)
    (events : List (Except WsProtocolError WsMessage)) (name : String) (args : List String)
    (h : TraceEvent.callHandler name args ∈ (processEvents ws events).trace) :
    ∃ n m, args = build_arguments n ws.id m := by
  induction events with
  | nil => simp [processEvents] at h
  | cons e rest ih =>
      unfold processEvents at h
      dsimp only at h
      split at h
      · exact handle_callHandler_args ws e name args h
      · dsimp only at h
        rw [List.mem_append] at h
        rcases h with h | h
        · exact handle_callHandler_args ws e name args h
        · exact ih h

/-- Every invocation recorded in a whole session lifecycle carries arguments
built from that session's identity. -/
theorem run_lifecycle_callHandler_args (ws : MyWs)
    (events : List (Except WsProtocolError WsMessage)) (name : String) (args : List String)
    (h : TraceEvent.callHandler name args ∈ (run_lifecycle ws events).trace) :
    ∃ n m, args = build_arguments n ws.id m := by
  unfold run_lifecycle at h
  dsimp only at h
  split at h
  · exact started_callHandler_args ws name args h
  · split at h
    · dsimp only at h
      rw [List.mem_append] at h
      rcases h with h | h
      · exact started_callHandler_args ws name args h
      · exact processEvents_callHandler_args ws events name args h
    · dsimp only at h
      simp only [List.mem_append] at h
      rcases h with (h | h) | h
      · exact started_callHandler_args ws name args h
      · exact processEvents_callHandler_args ws events name args h
      · exact stopped_callHandler_args ws name args h

/-- Claim C8: the connection identity is fixed at construction, and within one
session lifecycle every recorded handler invocation with at least one argument
receives that identity as its first positional argument. -/
theorem c8_identity_first_arg (ws : MyWs)
    (events : List (Except WsProtocolError WsMessage)) (name : String) (args : List String)
    (h : TraceEvent.callHandler name args ∈ (run_lifecycle ws events).trace)
    (hne : args ≠ []) :
    args.head? = some ws.id := by
  obtain ⟨n, m, rfl⟩ := run_lifecycle_callHandler_args ws events name args h
  exact build_arguments_head n ws.id m hne

/-- Witness for C8 on a concrete lifecycle: the `message` invocation for a
Text frame carries the session identity first. -/
theorem c8_identity_first_arg_witness :
    (["id0", "ping"] : List String).head? = some (MyWs.id wsOk) :=
  c8_identity_first_arg wsOk [Except.ok (WsMessage.Text "ping")] "message"
    ["id0", "ping"] (by decide) (by decide)

/-- The two unwrap panic messages are distinct. -/
theorem resultUnwrapPanic_ne : resultUnwrapPanic ≠ optionUnwrapPanic := by
  decide

/-- The execution bridge itself never raises the router-lookup panic: its only
unwraps are `Result::unwrap` on the Python call path. -/
theorem execute_panic_ne_lookup (function : FunctionInfo) (text : Option String)
    (en : String) (ws : MyWs) :
    (execute_ws_function function text en ws).panicMsg ≠ some optionUnwrapPanic := by
  unfold execute_ws_function
  dsimp only
  split
  · split
    · exact fun hx => resultUnwrapPanic_ne (Option.some.inj hx)
    · exact fun hx => resultUnwrapPanic_ne (Option.some.inj hx)
    · exact fun hx => Option.noConfusion hx
  · split
    · exact fun hx => resultUnwrapPanic_ne (Option.some.inj hx)
    · split
      · exact fun hx => Option.noConfusion hx
      · exact fun hx => Option.noConfusion hx

/-- With a `connect` entry present, `Actor::started` never raises the
router-lookup panic. -/
theorem started_no_lookup_panic (ws : MyWs)
    (hc : (routerGet ws.router "connect").isSome = true) :
    (MyWs.started ws).panicMsg ≠ some optionUnwrapPanic := by
  unfold MyWs.started
  rcases hr : routerGet ws.router "connect" with _ | f
  · rw [hr] at hc; simp at hc
  · exact execute_panic_ne_lookup f none "connect" ws

/-- With a `close` entry present, `Actor::stopped` never raises the
router-lookup panic. -/
theorem stopped_no_lookup_panic (ws : MyWs)
    (hcl : (routerGet ws.router "close").isSome = true) :
    (MyWs.stopped ws).panicMsg ≠ some optionUnwrapPanic := by
  unfold MyWs.stopped
  rcases hr : routerGet ws.router "close" with _ | f
  · rw [hr] at hcl; simp at hcl
  · exact execute_panic_ne_lookup f none "close" ws

/-- With all three entries present, handling any inbound message never raises
the router-lookup panic. -/
theorem handle_no_lookup_panic (ws : MyWs) (msg : Except WsProtocolError WsMessage)
    (hc : (routerGet ws.router "connect").isSome = true)
    (hm : (routerGet ws.router "message").isSome = true)
    (hcl : (routerGet ws.router "close").isSome = true) :
    (MyWs.handle ws msg).panicMsg ≠ some optionUnwrapPanic := by
  unfold MyWs.handle
  rcases msg with e | m
  · dsimp only; simp
  · rcases m with b | b | s | b | _ | _ | _ <;> dsimp only
    · rcases hr : routerGet ws.router "connect" with _ | f
      · rw [hr] at hc; simp at hc
      · dsimp only
        rcases hp : (execute_ws_function f none "connect" ws).panicMsg with _ | p
        · dsimp only
          simp
        · dsimp only
          have hx := execute_panic_ne_lookup f none "connect" ws
          rw [hp] at hx
          exact hx
    · simp
    · rcases hr : routerGet ws.router "message" with _ | f
      · rw [hr] at hm; simp at hm
      · exact execute_panic_ne_lookup f (some s) "message" ws
    · simp
    · rcases hr : routerGet ws.router "close" with _ | f
      · rw [hr] at hcl; simp at hcl
      · exact execute_panic_ne_lookup f none "close" ws
    · simp
    · simp

/-- With all three entries present, processing an event list never raises the
router-lookup panic. -/
theorem processEvents_no_lookup_panic (ws : MyWs)
    (events : List (Except WsProtocolError WsMessage))
    (hc : (routerGet ws.router "connect").isSome = true)
    (hm : (routerGet ws.router "message").isSome = true)
    (hcl : (routerGet ws.router "close").isSome = true) :
    (processEvents ws events).panicMsg ≠ some optionUnwrapPanic := by
  induction events with
  | nil => simp [processEvents]
  | cons e rest ih =>
      unfold processEvents
      dsimp only
      rcases hp : (MyWs.handle ws e).panicMsg with _ | p
      · dsimp only
        exact ih
      · dsimp only
        have hx := handle_no_lookup_panic ws e hc hm hcl
        rw [hp] at hx
        exact hx

/-- Claim C9: looking up an absent event name is the fatal `Option::unwrap`
panic (shown for an absent `message` entry on a Text event); and under the
construction-time precondition that the registry holds `connect`, `message`
and `close` entries, every lookup a session lifecycle performs succeeds — the
fatal lookup branch is unreachable throughout start, event processing, and
teardown. -/
theorem c9_lookup_fatal_and_unreachable (ws : MyWs)
    (events : List (Except WsProtocolError WsMessage))
    (hc : (routerGet ws.router "connect").isSome = true)
    (hm : (routerGet ws.router "message").isSome = true)
    (hcl : (routerGet ws.router "close").isSome = true) :
    (∀ ws2 : MyWs, ∀ s2 : String, routerGet ws2.router "message" = none →
      (MyWs.handle ws2 (Except.ok (WsMessage.Text s2))).panicMsg = some optionUnwrapPanic) ∧
    (run_lifecycle ws events).panicMsg ≠ some optionUnwrapPanic := by
  constructor
  · intro ws2 s2 hnone
    unfold MyWs.handle
    rw [hnone]
  · unfold run_lifecycle
    dsimp only
    rcases hs : (MyWs.started ws).panicMsg with _ | p
    · dsimp only
      rcases hp : (processEvents ws events).panicMsg with _ | q
      · dsimp only
        exact stopped_no_lookup_panic ws hcl
      · dsimp only
        have hx := processEvents_no_lookup_panic ws events hc hm hcl
        rw [hp] at hx
        exact hx
    · dsimp only
      have hx := started_no_lookup_panic ws hc
      rw [hs] at hx
      exact hx

/-- Witness for C9 on a complete concrete registry and a concrete lifecycle. -/
theorem c9_lookup_fatal_and_unreachable_witness :
    (run_lifecycle wsOk [Except.ok (WsMessage.Text "ping")]).panicMsg ≠
      some optionUnwrapPanic :=
  (c9_lookup_fatal_and_unreachable wsOk [Except.ok (WsMessage.Text "ping")]
    rfl rfl rfl).2
